import Mathlib

/-!
Verification of the rust-rm core (src/main.rs) against its specification.

The development shallowly embeds the program's data model and operations:

* module `fs` of the source: `Entry`, `EntryKind`, `Error`, `ErrorKind`,
  `fs::open` (here the `World.resolve` field), `fs::is_empty`;
* module `walk`: `Item`, `visit`, `given`, `recurse_path`;
* module `transform`: the seven pipeline transformers and the interactive
  prompt handling;
* module `cli`: the transformer-array assembly of `cli::run`, its
  removed/errored tally fold and the resulting exit status.

File-system effects are made explicit through a `World` record of pure
functions (the probe `fs::open` performs, `std::fs::read_dir`,
`std::fs::File::open` and the one-byte `read`): the embedding describes the
program's behaviour over a fixed snapshot of the file system, which is the
setting of every specified property (TOCTOU races are observed only by the
Remover, which is outside the embedded fragment and abstracted as a
function).  Paths are modelled as the component lists that Rust's
`std::path::Path::components` produces (after its normalisation), so
`Path::ends_with` becomes a component-list suffix test and `Path::parent`
a match on the component list.  Rust's `String` functions `trim` and
`to_lowercase` are modelled by character-list operations (`strTrim`,
`strToLower`).  The lazy iterator returned by a walker is modelled as the
list of the outcomes it yields; `walk::recurse_path`'s unbounded recursion
over the file system is made well-founded with an explicit fuel parameter
(the code's recursion is bounded by the finite depth of the real file
system).
-/

namespace RustRm

/-- Path components as produced by Rust's `Path::components` after its
normalisation: a leading root, a current-directory component (kept only at
the start of a relative path), a parent-directory component, or a normal
name. -/
inductive Component where
  | rootDir
  | curDir
  | parentDir
  | normal (name : String)
deriving DecidableEq, Repr

/-- A file-system path, as its normalised component list. -/
abbrev FsPath := List Component

/-- Model of `fs::EntryKind`: the kind of a file system entry. -/
inductive EntryKind where
  | dir
  | file
  | symlink
deriving DecidableEq, Repr

/-- Model of `fs::Entry`: a resolved file system entry (kind and path). -/
structure Entry where
  kind : EntryKind
  path : FsPath
deriving DecidableEq, Repr

/-- Model of `fs::ErrorKind`. -/
inductive ErrorKind where
  | directoryNotEmpty
  | isADirectory
  | notFound
  | permissionDenied
  | refused
  | unknown
deriving DecidableEq, Repr

/-- Model of `fs::Error`: kind, path and optional tip.  `Error::new` (used
by `fs::open` and `Entry::into_err`) always sets `tip` to `None`. -/
structure Error where
  kind : ErrorKind
  path : FsPath
  tip : Option String
deriving DecidableEq, Repr

/-- Model of `fs::Error::with_tip`. -/
def Error.with_tip (err : Error) (tip : String) : Error :=
  { err with tip := some tip }

/-- Model of `fs::Result = Result<Entry, Error>`. -/
abbrev FsResult := Except Error Entry

instance {ε α : Type} [DecidableEq ε] [DecidableEq α] : DecidableEq (Except ε α) :=
  fun a b =>
    match a, b with
    | .ok x, .ok y =>
      if h : x = y then isTrue (by rw [h]) else isFalse (fun hc => by cases hc; exact h rfl)
    | .error x, .error y =>
      if h : x = y then isTrue (by rw [h]) else isFalse (fun hc => by cases hc; exact h rfl)
    | .ok _, .error _ => isFalse (fun hc => by cases hc)
    | .error _, .ok _ => isFalse (fun hc => by cases hc)

/-- Model of `fs::Entry::into_err`: an error for the entry's path with the
given kind and no tip. -/
def Entry.into_err (entry : Entry) (kind : ErrorKind) : Error :=
  { kind := kind, path := entry.path, tip := none }

/-- Model of `fs::Entry::is_dir`. -/
def Entry.is_dir (entry : Entry) : Bool :=
  match entry.kind with
  | .dir => true
  | _ => false

/-- A snapshot of the file system and of the OS calls the embedded fragment
performs: `resolve` is `fs::open`'s classification of a path (via
`symlink_metadata`), `readDirAt` is `std::fs::read_dir` at a path (error
kind, or the child names in listing order), `openAt` is
`std::fs::File::open`, and `readAt` is the one-byte `read` used by
`fs::is_empty` (returning how many bytes were read). -/
structure World where
  resolve : FsPath → FsResult
  readDirAt : FsPath → Except ErrorKind (List String)
  openAt : FsPath → Except ErrorKind Unit
  readAt : FsPath → Except ErrorKind Nat

/-- Model of `fs::is_empty`: a directory is empty when listing it fails or
yields no entries; a file is empty when opening fails, reading fails, or
zero bytes are read; a symlink is always empty. -/
def is_empty (w : World) (entry : Entry) : Bool :=
  match entry.kind with
  | .dir =>
    match w.readDirAt entry.path with
    | .error _ => true
    | .ok content => content.isEmpty
  | .file =>
    match w.openAt entry.path with
    | .error _ => true
    | .ok _ =>
      match w.readAt entry.path with
      | .error _ => true
      | .ok n => n == 0
  | .symlink => true

/-- Model of `walk::Item`: the threaded result plus the skip marker and the
visited flag. -/
structure Item where
  inner : FsResult
  skip_reason : Option String
  visited : Bool
deriving DecidableEq, Repr

/-- Model of `walk::Item::into_skipped`. -/
def Item.into_skipped (item : Item) (reason : String) : Item :=
  { item with skip_reason := some reason }

/-- Model of `walk::Item::into_visited`. -/
def Item.into_visited (item : Item) : Item :=
  { item with visited := true }

/-- Model of `walk::Item::is_visited`. -/
def Item.is_visited (item : Item) : Bool :=
  item.visited

/-- Model of `transform::Transformer`: a function from item to item. -/
abbrev Transformer := Item → Item

/-- The transformer sequence a walker applies (the code fixes its length to
five; the list length is left free, which only generalises). -/
abbrev Transformers := List Transformer

/-- The fold `transformers.iter().fold(item, |item, transform| transform(item))`
inside `walk::visit`. -/
def applyAll (transformers : Transformers) (item : Item) : Item :=
  transformers.foldl (fun item transform => transform item) item

/-- Model of `walk::visit`: run the item through every transformer, then
drop it (yield nothing) when a skip reason is present, else yield its inner
result. -/
def visit (item : Item) (transformers : Transformers) : Option FsResult :=
  let item := applyAll transformers item
  match item.skip_reason with
  | some _ => none
  | none => some item.inner

/-- Model of `walk::open`: wrap the resolution of a path as a fresh item
(no skip reason, not visited). -/
def walkOpen (w : World) (path : FsPath) : Item :=
  { inner := w.resolve path, skip_reason := none, visited := false }

/-- Model of the `walk::given` walker at one path: visit the opened item
marked visited and yield the at-most-one result. -/
def given (w : World) (transformers : Transformers) (path : FsPath) : List FsResult :=
  (visit (walkOpen w path).into_visited transformers).toList

/-- The path of a directory entry's child as `read_dir` reports it: the
directory's path extended by the child's name. -/
def childPath (dirPath : FsPath) (name : String) : FsPath :=
  dirPath ++ [Component.normal name]

/-- Model of `walk::recurse_path`.  Visit the opened path; when the
(pipeline-transformed) result is a non-skipped directory entry that is not
empty, list it: on success recurse into every child and afterwards visit
the directory itself a second time with `visited = true`, yielding that
result last; on a listing failure yield a single error derived from it.
In every other case yield the single already-computed result.  The fuel
argument makes the file-system recursion well-founded; `0` models an
exhausted traversal and is below every depth a run reaches. -/
def recursePath (w : World) (transformers : Transformers) : Nat → FsPath → List FsResult
  | 0, _ => []
  | fuel + 1, path =>
    match visit (walkOpen w path) transformers with
    | none => []
    | some result =>
      match result with
      | .ok dir =>
        if dir.is_dir && !(is_empty w dir) then
          match w.readDirAt dir.path with
          | .ok content =>
            (content.flatMap fun name =>
              recursePath w transformers fuel (childPath dir.path name))
              ++ (visit { inner := .ok dir, skip_reason := none, visited := true }
                    transformers).toList
          | .error errKind => [.error (dir.into_err errKind)]
        else [result]
      | .error _ => [result]

/-- Model of `transform::identity`. -/
def identity (item : Item) : Item :=
  item

/-- The tip text of `transform::TIP_IS_DIR`. -/
def TIP_IS_DIR : String := "use '--dir' to remove"

/-- Model of `transform::disallow_all_dirs`: turn every directory entry
into an `IsADirectory` error carrying the dir tip; leave everything else
untouched. -/
def disallow_all_dirs (item : Item) : Item :=
  { item with inner := item.inner.bind (fun entry =>
      if entry.is_dir then
        .error ((entry.into_err .isADirectory).with_tip TIP_IS_DIR)
      else
        .ok entry) }

/-- Model of `transform::is_current_or_parent_dir`:
`path.ends_with(".") || path.ends_with("..")`, where `Path::ends_with`
matches whole trailing components. -/
def is_current_or_parent_dir (path : FsPath) : Bool :=
  [Component.curDir].isSuffixOf path || [Component.parentDir].isSuffixOf path

/-- Model of `transform::disallow_current_and_parent_dir`: turn an entry
whose path ends with a current- or parent-directory component into a
`Refused` error (no tip); leave everything else untouched. -/
def disallow_current_and_parent_dir (item : Item) : Item :=
  { item with inner := item.inner.bind (fun entry =>
      if is_current_or_parent_dir entry.path then
        .error (entry.into_err .refused)
      else
        .ok entry) }

/-- The tip text of `transform::TIP_DIR_NOT_EMPTY`. -/
def TIP_DIR_NOT_EMPTY : String := "use '--recursive' to remove"

/-- Model of `transform::disallow_filled_dirs`: turn every non-empty
directory entry into a `DirectoryNotEmpty` error carrying the recursive
tip; leave everything else untouched. -/
def disallow_filled_dirs (w : World) (item : Item) : Item :=
  { item with inner := item.inner.bind (fun entry =>
      if entry.is_dir && !(is_empty w entry) then
        .error ((entry.into_err .directoryNotEmpty).with_tip TIP_DIR_NOT_EMPTY)
      else
        .ok entry) }

/-- Model of `Path::parent`: strip the final component; nothing remains of
the empty path or of a bare root. -/
def parentPath (path : FsPath) : Option FsPath :=
  match path with
  | [] => none
  | [Component.rootDir] => none
  | _ => some path.dropLast

/-- Model of `transform::is_root`: `path.parent().is_none()`. -/
def is_root (path : FsPath) : Bool :=
  (parentPath path).isNone

/-- Model of `transform::disallow_root`: turn an entry at the file-system
root into a `Refused` error (no tip); leave everything else untouched. -/
def disallow_root (item : Item) : Item :=
  { item with inner := item.inner.bind (fun entry =>
      if is_root entry.path then
        .error (entry.into_err .refused)
      else
        .ok entry) }

/-- The skip reason of `transform::SKIP_REASON_NOT_FOUND`. -/
def SKIP_REASON_NOT_FOUND : String := "Not found"

/-- Model of `transform::skip_not_found`: mark an item holding a `NotFound`
error as skipped with reason "Not found"; leave everything else
untouched. -/
def skip_not_found (item : Item) : Item :=
  match item.inner with
  | .error err =>
    if err.kind = ErrorKind.notFound then
      item.into_skipped SKIP_REASON_NOT_FOUND
    else
      item
  | .ok _ => item

/-- The tip text of `transform::TIP_NOT_FOUND`. -/
def TIP_NOT_FOUND : String := "use '--blind' to ignore"

/-- Model of `transform::tip_not_found`: attach the blind tip to a
`NotFound` error; leave everything else untouched. -/
def tip_not_found (item : Item) : Item :=
  { item with inner := item.inner.mapError fun err =>
      if err.kind = ErrorKind.notFound then err.with_tip TIP_NOT_FOUND else err }

/-- Model of Rust's `str::trim` on the character list (drop leading and
trailing whitespace). -/
def strTrim (s : String) : String :=
  String.mk (((s.data.dropWhile Char.isWhitespace).reverse.dropWhile
    Char.isWhitespace).reverse)

/-- Model of Rust's `str::to_lowercase` on the character list. -/
def strToLower (s : String) : String :=
  String.mk (s.data.map Char.toLower)

/-- The skip reason of `transform::SKIP_REASON_ANSWER_NO`. -/
def SKIP_REASON_ANSWER_NO : String := "Kept by user"

/-- The skip reason of `transform::SKIP_REASON_ANSWER_UNKNOWN`. -/
def SKIP_REASON_ANSWER_UNKNOWN : String := "Unrecognized input"

/-- The skip reason of `transform::SKIP_REASON_IO_ERROR`. -/
def SKIP_REASON_IO_ERROR : String := "I/O error"

/-- Model of `transform::prompt`: write the prompt, read one line, clear
the prompt line, and return the trimmed answer; any write or read failure
is an error.  The three `Except Unit` arguments are the outcomes of the
prompt write (with its flush), the line read, and the clear-line write
(with its flush). -/
def promptResult (writePrompt : Except Unit Unit) (readLine : Except Unit String)
    (writeClear : Except Unit Unit) : Except Unit String := do
  let _ ← writePrompt
  let answer ← readLine
  let _ ← writeClear
  pure (strTrim answer)

/-- Model of `transform::interact_transform`: map the lowercased (already
trimmed) answer; "y"/"yes" pass the item through, "n"/"no" skip it as kept
by the user, anything else skips it as unrecognized, and an I/O failure
skips it as an I/O error. -/
def interact_transform (response : Except Unit String) (item : Item) : Item :=
  match response with
  | .ok answer =>
    let lowered := strToLower answer
    if lowered = "y" ∨ lowered = "yes" then
      item
    else if lowered = "n" ∨ lowered = "no" then
      item.into_skipped SKIP_REASON_ANSWER_NO
    else
      item.into_skipped SKIP_REASON_ANSWER_UNKNOWN
  | .error _ => item.into_skipped SKIP_REASON_IO_ERROR

/-- Model of `transform::interactive`: prompt only for items holding an
entry (errors pass through untouched); the user interaction is abstracted
as a `respond` function from the prompted entry and its visited flag to the
prompt outcome (what `transform::prompt` returned). -/
def interactive (respond : Entry → Bool → Except Unit String) (item : Item) : Item :=
  match item.inner with
  | .ok entry => interact_transform (respond entry item.is_visited) item
  | .error _ => item

/-- Display of a path for prompt text (models `Path::display` on the
component list). -/
def displayPath (path : FsPath) : String :=
  String.intercalate "/" (path.map fun c =>
    match c with
    | .rootDir => "/"
    | .curDir => "."
    | .parentDir => ".."
    | .normal name => name)

/-- Model of `transform::new_prompt_for`: the question text depends on the
entry's kind and, for a directory, on its emptiness and on whether this is
the post-descent visit; every prompt ends with the suffix "? [Y/n] ". -/
def new_prompt_for (w : World) (entry : Entry) (visited : Bool) : String :=
  let question :=
    match entry.kind with
    | .dir =>
      if is_empty w entry then "Remove empty directory"
      else if visited then "Remove directory"
      else "Descend into directory"
    | .file => "Remove regular file"
    | .symlink => "Remove symbolic link"
  question ++ " " ++ displayPath entry.path ++ "? [Y/n] "

/-- The configuration record `cli::Args` exposes to `cli::run` (the boolean
policy switches; the trash feature is off in this build, as in the default
feature set). -/
structure Config where
  blind : Bool
  dir : Bool
  force : Bool
  interactive : Bool
  no_preserve_root : Bool
  quiet : Bool
  recursive : Bool
  verbose : Bool
deriving DecidableEq, Repr

/-- The second pipeline slot of `cli::run`: identity under
`no_preserve_root`, the root guard otherwise. -/
def rootGuardStage (no_preserve_root : Bool) : Transformer :=
  if no_preserve_root then identity else disallow_root

/-- The third pipeline slot of `cli::run`: skip missing paths under
`blind`, tip them otherwise. -/
def notFoundStage (blind : Bool) : Transformer :=
  if blind then skip_not_found else tip_not_found

/-- The fourth pipeline slot of `cli::run`: the directory admission policy
selected by the (dir, recursive) pair. -/
def dirStage (dir recursive : Bool) (w : World) : Transformer :=
  match dir, recursive with
  | false, false => disallow_all_dirs
  | true, false => disallow_filled_dirs w
  | _, true => identity

/-- The fifth pipeline slot of `cli::run`: the interactive stage, identity
unless enabled. -/
def interactiveStage (inter : Bool) (respond : Entry → Bool → Except Unit String) :
    Transformer :=
  if inter then interactive respond else identity

/-- The transformer array `cli::run` assembles from the configuration, in
its fixed order: refuse trailing dot components, guard the root (unless
overridden), handle not-found (skip under blind, tip otherwise), admit
directories per the (dir, recursive) pair, and finally the interactive
stage (identity unless enabled). -/
def mkTransformers (args : Config) (w : World)
    (respond : Entry → Bool → Except Unit String) : Transformers :=
  [ disallow_current_and_parent_dir,
    rootGuardStage args.no_preserve_root,
    notFoundStage args.blind,
    dirStage args.dir args.recursive w,
    interactiveStage args.interactive respond ]

/-- Model of `rm::Result = Result<String, fs::Error>`. -/
abbrev RmResult := Except Error String

/-- Largest value of the `usize` tallies on a 64-bit target. -/
def USIZE_MAX : Nat := 2 ^ 64 - 1

/-- Model of `checked_add(1).unwrap_or(usize::MAX)` on a tally. -/
def satSucc (n : Nat) : Nat :=
  if n + 1 ≤ USIZE_MAX then n + 1 else USIZE_MAX

/-- One step of the removed/errored tally fold in `cli::run`. -/
def tallyStep (acc : Nat × Nat) (result : RmResult) : Nat × Nat :=
  match result with
  | .ok _ => (satSucc acc.1, acc.2)
  | .error _ => (acc.1, satSucc acc.2)

/-- The map stage of `cli::run`: route surviving entries to the selected
Remover, pass errors along. -/
def applyRemove (remove : Entry → RmResult) (result : FsResult) : RmResult :=
  match result with
  | .ok entry => remove entry
  | .error err => .error err

/-- Whether a processed outcome is an error. -/
def isErrorResult (result : RmResult) : Bool :=
  match result with
  | .ok _ => false
  | .error _ => true

/-- The walker outcomes `cli::run` processes: each root path is fed to the
recursive walker when `recursive` is set and to the given walker
otherwise, and the yielded outcome streams are concatenated. -/
def runResults (args : Config) (w : World)
    (respond : Entry → Bool → Except Unit String) (fuel : Nat)
    (paths : List FsPath) : List FsResult :=
  let transformers := mkTransformers args w respond
  paths.flatMap fun path =>
    if args.recursive then recursePath w transformers fuel path
    else given w transformers path

/-- The (removed, errored) tally of `cli::run`: map every outcome through
the Remover routing, then fold with the saturating counters, starting from
`(0, 0)`.  The Remover variant is abstracted as the `remove` argument (its
choice between remove / dispose / dry-run variants does not affect the
embedded control flow). -/
def runTally (remove : Entry → RmResult) (args : Config) (w : World)
    (respond : Entry → Bool → Except Unit String) (fuel : Nat)
    (paths : List FsPath) : Nat × Nat :=
  ((runResults args w respond fuel paths).map (applyRemove remove)).foldl
    tallyStep (0, 0)

/-- The result of `cli::run`: an error exactly when the errored tally is
positive. -/
def run (remove : Entry → RmResult) (args : Config) (w : World)
    (respond : Entry → Bool → Except Unit String) (fuel : Nat)
    (paths : List FsPath) : Except Unit Unit :=
  if 0 < (runTally remove args w respond fuel paths).2 then .error () else .ok ()

/-- Model of `main`'s exit: `ExitCode::SUCCESS` (0) on `Ok`,
`ExitCode::FAILURE` (1) on `Err`. -/
def mainExitCode (result : Except Unit Unit) : Nat :=
  match result with
  | .ok _ => 0
  | .error _ => 1

/-- Tip discipline: an item's error, if any, may carry a tip only for the
recoverable kinds NotFound, IsADirectory and DirectoryNotEmpty. -/
def TipOk (item : Item) : Prop :=
  ∀ err, item.inner = Except.error err → err.tip ≠ none →
    (err.kind = ErrorKind.notFound ∨ err.kind = ErrorKind.isADirectory ∨
      err.kind = ErrorKind.directoryNotEmpty)

/-- A configuration with every switch off (plain `rm PATH` invocation). -/
def args0 : Config :=
  { blind := false, dir := false, force := false, interactive := false,
    no_preserve_root := false, quiet := false, recursive := false, verbose := false }

/-- An interaction oracle that always answers yes. -/
def respondY : Entry → Bool → Except Unit String :=
  fun _ _ => Except.ok "y"

/-- A Remover stub that always succeeds. -/
def removeOk : Entry → RmResult :=
  fun _ => Except.ok "Removed"

/-- A world where nothing exists: every resolution is a NotFound error and
every other probe fails. -/
def wNotFound : World :=
  { resolve := fun p => Except.error ⟨ErrorKind.notFound, p, none⟩,
    readDirAt := fun _ => Except.error ErrorKind.permissionDenied,
    openAt := fun _ => Except.error ErrorKind.permissionDenied,
    readAt := fun _ => Except.error ErrorKind.permissionDenied }

/-- A world where every path resolves to a directory whose listing is
denied. -/
def wDirDenied : World :=
  { resolve := fun p => Except.ok ⟨EntryKind.dir, p⟩,
    readDirAt := fun _ => Except.error ErrorKind.permissionDenied,
    openAt := fun _ => Except.ok (),
    readAt := fun _ => Except.ok 0 }

/-- The path of the sample directory of `wTree`. -/
def dPath : FsPath := [Component.normal "d"]

/-- The sample directory entry of `wTree`. -/
def dEntry : Entry := ⟨EntryKind.dir, dPath⟩

/-- A world holding one directory `d` with a single child file `f`. -/
def wTree : World :=
  { resolve := fun p =>
      if p = dPath then Except.ok dEntry else Except.ok ⟨EntryKind.file, p⟩,
    readDirAt := fun p =>
      if p = dPath then Except.ok ["f"] else Except.error ErrorKind.unknown,
    openAt := fun _ => Except.ok (),
    readAt := fun _ => Except.ok 0 }

/-!
Helper lemmas shared by the claim theorems: how each pipeline stage acts on
an item whose inner result is already an error.
-/

theorem disallow_current_and_parent_dir_err (item : Item) (err : Error)
    (h : item.inner = Except.error err) :
    disallow_current_and_parent_dir item = item := by
  obtain ⟨inner, sr, vis⟩ := item
  cases h
  rfl

theorem disallow_root_err (item : Item) (err : Error)
    (h : item.inner = Except.error err) :
    disallow_root item = item := by
  obtain ⟨inner, sr, vis⟩ := item
  cases h
  rfl

theorem disallow_all_dirs_err (item : Item) (err : Error)
    (h : item.inner = Except.error err) :
    disallow_all_dirs item = item := by
  obtain ⟨inner, sr, vis⟩ := item
  cases h
  rfl

theorem disallow_filled_dirs_err (w : World) (item : Item) (err : Error)
    (h : item.inner = Except.error err) :
    disallow_filled_dirs w item = item := by
  obtain ⟨inner, sr, vis⟩ := item
  cases h
  rfl

theorem interactive_err (respond : Entry → Bool → Except Unit String) (item : Item)
    (err : Error) (h : item.inner = Except.error err) :
    interactive respond item = item := by
  obtain ⟨inner, sr, vis⟩ := item
  cases h
  rfl

theorem skip_not_found_hit (item : Item) (err : Error)
    (h : item.inner = Except.error err) (hk : err.kind = ErrorKind.notFound) :
    skip_not_found item = item.into_skipped SKIP_REASON_NOT_FOUND := by
  obtain ⟨inner, sr, vis⟩ := item
  cases h
  simp [skip_not_found, hk]

theorem tip_not_found_hit (item : Item) (err : Error)
    (h : item.inner = Except.error err) (hk : err.kind = ErrorKind.notFound) :
    tip_not_found item = { item with inner := Except.error (err.with_tip TIP_NOT_FOUND) } := by
  obtain ⟨inner, sr, vis⟩ := item
  cases h
  simp [tip_not_found, Except.mapError, hk]

/-- C7: the emptiness predicate holds of a directory entry exactly when its
listing yields no entries (a failed listing yields none), holds of every
symlink entry, and holds of a file entry exactly when opening it fails,
reading from it fails, or reading one byte returns zero bytes. -/
theorem is_empty_spec (w : World) (e : Entry) :
    (e.kind = EntryKind.dir →
      (is_empty w e = true ↔
        ((∃ k, w.readDirAt e.path = Except.error k) ∨ w.readDirAt e.path = Except.ok [])))
  ∧ (e.kind = EntryKind.symlink → is_empty w e = true)
  ∧ (e.kind = EntryKind.file →
      (is_empty w e = true ↔
        ((∃ k, w.openAt e.path = Except.error k) ∨ (∃ k, w.readAt e.path = Except.error k) ∨
          w.readAt e.path = Except.ok 0))) := by
  refine ⟨?_, ?_, ?_⟩
  · intro hk
    constructor
    · intro he
      cases hld : w.readDirAt e.path with
      | error k => exact Or.inl ⟨k, rfl⟩
      | ok content =>
        simp only [is_empty, hk, hld] at he
        rw [List.isEmpty_iff] at he
        exact Or.inr (by rw [he])
    · rintro (⟨k, hld⟩ | hld) <;> simp [is_empty, hk, hld]
  · intro hk
    simp [is_empty, hk]
  · intro hk
    constructor
    · intro he
      cases hop : w.openAt e.path with
      | error k => exact Or.inl ⟨k, rfl⟩
      | ok u =>
        cases hrd : w.readAt e.path with
        | error k => exact Or.inr (Or.inl ⟨k, rfl⟩)
        | ok n =>
          simp only [is_empty, hk, hop, hrd, beq_iff_eq] at he
          exact Or.inr (Or.inr (by rw [he]))
    · rintro (⟨k, hop⟩ | ⟨k, hrd⟩ | hrd)
      · simp [is_empty, hk, hop]
      · cases hop : w.openAt e.path with
        | error k2 => simp [is_empty, hk, hop]
        | ok u => simp [is_empty, hk, hop, hrd]
      · cases hop : w.openAt e.path with
        | error k2 => simp [is_empty, hk, hop]
        | ok u => simp [is_empty, hk, hop, hrd]

theorem is_empty_spec_witness :
    (is_empty wDirDenied ⟨EntryKind.dir, []⟩ = true ↔
      ((∃ k, wDirDenied.readDirAt [] = Except.error k) ∨ wDirDenied.readDirAt [] = Except.ok []))
  ∧ is_empty wDirDenied ⟨EntryKind.symlink, []⟩ = true
  ∧ (is_empty wDirDenied ⟨EntryKind.file, []⟩ = true ↔
      ((∃ k, wDirDenied.openAt [] = Except.error k) ∨
        (∃ k, wDirDenied.readAt [] = Except.error k) ∨
        wDirDenied.readAt [] = Except.ok 0)) :=
  ⟨(is_empty_spec wDirDenied ⟨EntryKind.dir, []⟩).1 rfl,
   (is_empty_spec wDirDenied ⟨EntryKind.symlink, []⟩).2.1 rfl,
   (is_empty_spec wDirDenied ⟨EntryKind.file, []⟩).2.2 rfl⟩

/-- C10: a directory entry whose listing fails is treated as empty: the
emptiness predicate returns true, the filled-directory policy passes the
item through unchanged, and the recursive walker yields the single
(pre-descent) outcome without descending. -/
theorem listing_failure_treated_empty (w : World) (e : Entry) (k : ErrorKind)
    (item : Item) (ts : Transformers) (fuel : Nat) (p : FsPath)
    (hk : e.kind = EntryKind.dir) (hl : w.readDirAt e.path = Except.error k)
    (hitem : item.inner = Except.ok e)
    (hvisit : visit (walkOpen w p) ts = some (Except.ok e)) :
    is_empty w e = true
  ∧ disallow_filled_dirs w item = item
  ∧ recursePath w ts (fuel + 1) p = [Except.ok e] := by
  have hemp : is_empty w e = true := by simp [is_empty, hk, hl]
  refine ⟨hemp, ?_, ?_⟩
  · obtain ⟨inner, sr, vis⟩ := item
    cases hitem
    simp [disallow_filled_dirs, Except.bind, hemp]
  · simp only [recursePath, hvisit]
    rw [hemp]
    simp

theorem listing_failure_treated_empty_witness :
    is_empty wDirDenied ⟨EntryKind.dir, []⟩ = true
  ∧ disallow_filled_dirs wDirDenied ⟨Except.ok ⟨EntryKind.dir, []⟩, none, false⟩
      = ⟨Except.ok ⟨EntryKind.dir, []⟩, none, false⟩
  ∧ recursePath wDirDenied [] (0 + 1) [] = [Except.ok ⟨EntryKind.dir, []⟩] :=
  listing_failure_treated_empty wDirDenied ⟨EntryKind.dir, []⟩ ErrorKind.permissionDenied
    ⟨Except.ok ⟨EntryKind.dir, []⟩, none, false⟩ [] 0 []
    rfl rfl rfl (by decide)

/-- C6 (amended): the first pipeline stage refuses exactly those entries
whose path ends with a current- or parent-directory component (the
semantics of Rust's `Path::ends_with`), producing a Refused error with no
tip; entries whose path merely contains such a component elsewhere, and
items already holding an error, pass through unchanged. -/
theorem refuse_trailing_dot_components (item : Item) :
    (∀ err, item.inner = Except.error err →
      disallow_current_and_parent_dir item = item)
  ∧ (∀ entry, item.inner = Except.ok entry →
      is_current_or_parent_dir entry.path = false →
      disallow_current_and_parent_dir item = item)
  ∧ (∀ entry, item.inner = Except.ok entry →
      is_current_or_parent_dir entry.path = true →
      disallow_current_and_parent_dir item =
        { item with inner := Except.error ⟨ErrorKind.refused, entry.path, none⟩ }) := by
  refine ⟨?_, ?_, ?_⟩
  · intro err h
    exact disallow_current_and_parent_dir_err item err h
  · intro entry h hfalse
    obtain ⟨inner, sr, vis⟩ := item
    cases h
    simp [disallow_current_and_parent_dir, Except.bind, hfalse]
  · intro entry h htrue
    obtain ⟨inner, sr, vis⟩ := item
    cases h
    simp [disallow_current_and_parent_dir, Except.bind, htrue, Entry.into_err]

theorem refuse_trailing_dot_components_witness :
    disallow_current_and_parent_dir
      ⟨Except.ok ⟨EntryKind.dir, [Component.parentDir]⟩, none, false⟩
      = ⟨Except.error ⟨ErrorKind.refused, [Component.parentDir], none⟩, none, false⟩ :=
  (refuse_trailing_dot_components
      ⟨Except.ok ⟨EntryKind.dir, [Component.parentDir]⟩, none, false⟩).2.2
    ⟨EntryKind.dir, [Component.parentDir]⟩ rfl (by decide)

/-- C6 counterexample: the path of `../foo` contains a parent-directory
component, yet the first pipeline stage passes the entry through unchanged
instead of refusing it, because only trailing components are examined. -/
theorem dot_component_not_refused_cex :
    (Component.parentDir ∈ ([Component.parentDir, Component.normal "foo"] : FsPath))
  ∧ disallow_current_and_parent_dir
      ⟨Except.ok ⟨EntryKind.dir, [Component.parentDir, Component.normal "foo"]⟩, none, false⟩
      = ⟨Except.ok ⟨EntryKind.dir, [Component.parentDir, Component.normal "foo"]⟩,
          none, false⟩ := by
  decide

theorem interact_transform_ok (answer : String) (item : Item) :
    interact_transform (Except.ok answer) item =
      (if strToLower answer = "y" ∨ strToLower answer = "yes" then item
       else if strToLower answer = "n" ∨ strToLower answer = "no" then
         item.into_skipped SKIP_REASON_ANSWER_NO
       else item.into_skipped SKIP_REASON_ANSWER_UNKNOWN) := rfl

theorem interact_transform_err (u : Unit) (item : Item) :
    interact_transform (Except.error u) item
      = item.into_skipped SKIP_REASON_IO_ERROR := rfl

theorem interactive_ok (respond : Entry → Bool → Except Unit String) (entry : Entry)
    (sr : Option String) (vis : Bool) :
    interactive respond ⟨Except.ok entry, sr, vis⟩
      = interact_transform (respond entry vis) ⟨Except.ok entry, sr, vis⟩ := rfl

/-- C9: an answer that trims to the empty string (pressing Enter alone)
skips the item with reason "Unrecognized input", so it is dropped by the
visit step and never removed, even though the prompt text ends with the
suffix "? [Y/n] " that suggests a default of yes. -/
theorem empty_answer_unrecognized (item : Item) (entry : Entry) (raw : String)
    (w : World)
    (hok : item.inner = Except.ok entry) (hns : item.skip_reason = none)
    (hraw : strTrim raw = "") :
    interactive (fun _ _ => promptResult (Except.ok ()) (Except.ok raw) (Except.ok ())) item
      = item.into_skipped SKIP_REASON_ANSWER_UNKNOWN
  ∧ visit (item.into_skipped SKIP_REASON_ANSWER_UNKNOWN) [] = none
  ∧ (∃ q, new_prompt_for w entry item.is_visited = q ++ "? [Y/n] ") := by
  refine ⟨?_, ?_, ?_⟩
  · obtain ⟨inner, sr, vis⟩ := item
    cases hok
    have hresp : promptResult (Except.ok ()) (Except.ok raw) (Except.ok ())
        = Except.ok "" := by
      have hr : promptResult (Except.ok ()) (Except.ok raw) (Except.ok ())
          = Except.ok (strTrim raw) := rfl
      rw [hr, hraw]
    rw [interactive_ok]
    show interact_transform (promptResult (Except.ok ()) (Except.ok raw) (Except.ok ()))
      ⟨Except.ok entry, sr, vis⟩ = _
    rw [hresp, interact_transform_ok]
    rw [if_neg (by decide), if_neg (by decide)]
  · simp [visit, applyAll, Item.into_skipped]
  · exact ⟨_, rfl⟩

theorem empty_answer_unrecognized_witness :
    interactive (fun _ _ => promptResult (Except.ok ()) (Except.ok "") (Except.ok ()))
      ⟨Except.ok ⟨EntryKind.file, []⟩, none, false⟩
      = (⟨Except.ok ⟨EntryKind.file, []⟩, none, false⟩ : Item).into_skipped
          SKIP_REASON_ANSWER_UNKNOWN
  ∧ visit ((⟨Except.ok ⟨EntryKind.file, []⟩, none, false⟩ : Item).into_skipped
      SKIP_REASON_ANSWER_UNKNOWN) [] = none
  ∧ (∃ q, new_prompt_for wDirDenied ⟨EntryKind.file, []⟩
      (⟨Except.ok ⟨EntryKind.file, []⟩, none, false⟩ : Item).is_visited
      = q ++ "? [Y/n] ") :=
  empty_answer_unrecognized ⟨Except.ok ⟨EntryKind.file, []⟩, none, false⟩
    ⟨EntryKind.file, []⟩ "" wDirDenied rfl rfl (by decide)

/-- C4: for a non-skipped, non-errored item at the interactive stage, the
trimmed, lowercased response maps as follows: "y" or "yes" passes the item
through unchanged; "n" or "no" skips it with reason "Kept by user"; any
other text skips it with reason "Unrecognized input"; and a failure of the
prompt write or of the input read skips it with reason "I/O error". -/
theorem interactive_response_mapping (item : Item) (entry : Entry) (raw : String)
    (readRes : Except Unit String) (w1 w2 : Except Unit Unit)
    (hok : item.inner = Except.ok entry) (hns : item.skip_reason = none) :
    ((strToLower (strTrim raw) = "y" ∨ strToLower (strTrim raw) = "yes") →
      interactive (fun _ _ => promptResult (Except.ok ()) (Except.ok raw) (Except.ok ())) item
        = item)
  ∧ ((strToLower (strTrim raw) = "n" ∨ strToLower (strTrim raw) = "no") →
      interactive (fun _ _ => promptResult (Except.ok ()) (Except.ok raw) (Except.ok ())) item
        = item.into_skipped SKIP_REASON_ANSWER_NO)
  ∧ (strToLower (strTrim raw) ≠ "y" → strToLower (strTrim raw) ≠ "yes" →
     strToLower (strTrim raw) ≠ "n" → strToLower (strTrim raw) ≠ "no" →
      interactive (fun _ _ => promptResult (Except.ok ()) (Except.ok raw) (Except.ok ())) item
        = item.into_skipped SKIP_REASON_ANSWER_UNKNOWN)
  ∧ ((w1 = Except.error () ∨ readRes = Except.error ()) →
      interactive (fun _ _ => promptResult w1 readRes w2) item
        = item.into_skipped SKIP_REASON_IO_ERROR) := by
  obtain ⟨inner, sr, vis⟩ := item
  cases hok
  have hresp : promptResult (Except.ok ()) (Except.ok raw) (Except.ok ())
      = Except.ok (strTrim raw) := rfl
  refine ⟨?_, ?_, ?_, ?_⟩
  · intro h
    rw [interactive_ok]
    show interact_transform (promptResult (Except.ok ()) (Except.ok raw) (Except.ok ()))
      ⟨Except.ok entry, sr, vis⟩ = _
    rw [hresp, interact_transform_ok, if_pos h]
  · intro h
    rw [interactive_ok]
    show interact_transform (promptResult (Except.ok ()) (Except.ok raw) (Except.ok ()))
      ⟨Except.ok entry, sr, vis⟩ = _
    rw [hresp, interact_transform_ok]
    rw [if_neg ?_, if_pos h]
    rcases h with h | h <;> rw [h] <;> decide
  · intro h1 h2 h3 h4
    rw [interactive_ok]
    show interact_transform (promptResult (Except.ok ()) (Except.ok raw) (Except.ok ()))
      ⟨Except.ok entry, sr, vis⟩ = _
    rw [hresp, interact_transform_ok]
    rw [if_neg ?_, if_neg ?_]
    · rintro (h | h)
      exacts [h3 h, h4 h]
    · rintro (h | h)
      exacts [h1 h, h2 h]
  · intro h
    have hfail : promptResult w1 readRes w2 = Except.error () := by
      rcases h with h | h
      · rw [h]; rfl
      · cases w1 with
        | error u => rfl
        | ok u => rw [h]; rfl
    rw [interactive_ok]
    show interact_transform (promptResult w1 readRes w2)
      ⟨Except.ok entry, sr, vis⟩ = _
    rw [hfail]
    exact interact_transform_err () _

theorem interactive_response_mapping_witness :
    interactive (fun _ _ => promptResult (Except.ok ()) (Except.ok " Y ") (Except.ok ()))
      ⟨Except.ok ⟨EntryKind.file, []⟩, none, false⟩
      = ⟨Except.ok ⟨EntryKind.file, []⟩, none, false⟩
  ∧ interactive (fun _ _ => promptResult (Except.ok ()) (Except.error ()) (Except.ok ()))
      ⟨Except.ok ⟨EntryKind.file, []⟩, none, false⟩
      = (⟨Except.ok ⟨EntryKind.file, []⟩, none, false⟩ : Item).into_skipped
          SKIP_REASON_IO_ERROR :=
  ⟨(interactive_response_mapping ⟨Except.ok ⟨EntryKind.file, []⟩, none, false⟩
      ⟨EntryKind.file, []⟩ " Y " (Except.ok "") (Except.ok ()) (Except.ok ())
      rfl rfl).1 (Or.inl (by decide)),
   (interactive_response_mapping ⟨Except.ok ⟨EntryKind.file, []⟩, none, false⟩
      ⟨EntryKind.file, []⟩ " Y " (Except.error ()) (Except.ok ()) (Except.ok ())
      rfl rfl).2.2.2 (Or.inr rfl)⟩

/-- C5 (amended): the Given walker yields at most one outcome: when the
pipeline applied to the resolver's result (marked visited) leaves the item
non-skipped, it yields exactly that transformed item's inner result; when
the pipeline marks the item skipped, it yields nothing. -/
theorem given_at_most_one (w : World) (ts : Transformers) (p : FsPath) :
    (given w ts p).length ≤ 1
  ∧ ((applyAll ts ⟨w.resolve p, none, true⟩).skip_reason = none →
      given w ts p = [(applyAll ts ⟨w.resolve p, none, true⟩).inner])
  ∧ (∀ reason, (applyAll ts ⟨w.resolve p, none, true⟩).skip_reason = some reason →
      given w ts p = []) := by
  have hg : given w ts p = (visit ⟨w.resolve p, none, true⟩ ts).toList := rfl
  rw [hg]
  cases h : (applyAll ts ⟨w.resolve p, none, true⟩).skip_reason with
  | none => simp [visit, h]
  | some reason => simp [visit, h]

theorem given_at_most_one_witness :
    given wNotFound [] [] = [(applyAll [] ⟨wNotFound.resolve [], none, true⟩).inner] :=
  (given_at_most_one wNotFound [] []).2.1 rfl

/-- C5 counterexample: for a missing path under the blind-style pipeline
(the skip-not-found stage), the Given walker yields no outcome at all,
refuting the claim that it yields exactly one outcome for every path. -/
theorem given_single_cex :
    given wNotFound [skip_not_found] [] = []
  ∧ (given wNotFound [skip_not_found] []).length = 0 := by
  decide

theorem satSucc_pos (n : Nat) : 0 < satSucc n := by
  unfold satSucc
  split
  · omega
  · norm_num [USIZE_MAX]

theorem satSucc_zero : satSucc 0 = 1 := by
  norm_num [satSucc, USIZE_MAX]

theorem tally_errored_pos (rs : List RmResult) (acc : Nat × Nat) :
    0 < (rs.foldl tallyStep acc).2 ↔ 0 < acc.2 ∨ ∃ r ∈ rs, isErrorResult r = true := by
  induction rs generalizing acc with
  | nil => simp
  | cons r rs ih =>
    rw [List.foldl_cons, ih]
    cases r with
    | ok v => simp [tallyStep, isErrorResult]
    | error e => simp [tallyStep, isErrorResult, satSucc_pos]

/-- C2: the run fails exactly when the errored tally is positive, the
errored tally is positive exactly when some processed outcome (resolution,
pipeline or Remover result) is an error, and the process exit code is the
failure code exactly when the run fails. -/
theorem run_failure_iff_errored (remove : Entry → RmResult) (args : Config) (w : World)
    (respond : Entry → Bool → Except Unit String) (fuel : Nat) (paths : List FsPath) :
    (run remove args w respond fuel paths = Except.error ()
      ↔ 0 < (runTally remove args w respond fuel paths).2)
  ∧ (0 < (runTally remove args w respond fuel paths).2
      ↔ ∃ r ∈ (runResults args w respond fuel paths).map (applyRemove remove),
          isErrorResult r = true)
  ∧ (mainExitCode (run remove args w respond fuel paths) = 1
      ↔ run remove args w respond fuel paths = Except.error ()) := by
  refine ⟨?_, ?_, ?_⟩
  · unfold run
    split <;> simp_all
  · unfold runTally
    rw [tally_errored_pos]
    simp
  · unfold run
    split <;> simp [mainExitCode]

/-- C3: for a path resolving to a tip-free NotFound error, the blind
pipeline marks the item skipped with reason "Not found", the walker yields
nothing for it and both tallies stay zero; without blind the pipeline
yields the NotFound error with the blind tip, the walker yields exactly
that error and the errored tally becomes one. -/
theorem not_found_blind_vs_tip (args : Config) (w : World)
    (respond : Entry → Bool → Except Unit String) (p : FsPath)
    (remove : Entry → RmResult)
    (hw : w.resolve p = Except.error ⟨ErrorKind.notFound, p, none⟩) :
    (applyAll (mkTransformers { args with blind := true } w respond)
        ⟨Except.error ⟨ErrorKind.notFound, p, none⟩, none, true⟩).skip_reason
      = some SKIP_REASON_NOT_FOUND
  ∧ given w (mkTransformers { args with blind := true } w respond) p = []
  ∧ ((given w (mkTransformers { args with blind := true } w respond) p).map
      (applyRemove remove)).foldl tallyStep (0, 0) = (0, 0)
  ∧ given w (mkTransformers { args with blind := false } w respond) p
      = [Except.error ⟨ErrorKind.notFound, p, some TIP_NOT_FOUND⟩]
  ∧ ((given w (mkTransformers { args with blind := false } w respond) p).map
      (applyRemove remove)).foldl tallyStep (0, 0) = (0, 1) := by
  obtain ⟨blind, dir, force, inter, npr, quiet, rec, verbose⟩ := args
  cases npr <;> cases dir <;> cases rec <;> cases inter <;>
    simp [mkTransformers, rootGuardStage, notFoundStage, dirStage, interactiveStage,
      applyAll, given, visit, walkOpen, Item.into_visited, hw,
      disallow_current_and_parent_dir, disallow_root, disallow_all_dirs,
      disallow_filled_dirs, skip_not_found, tip_not_found, identity, interactive,
      Item.into_skipped, Except.bind, Except.mapError, Error.with_tip,
      applyRemove, tallyStep, satSucc_zero, TIP_NOT_FOUND, SKIP_REASON_NOT_FOUND]

theorem not_found_blind_vs_tip_witness :
    given wNotFound (mkTransformers { args0 with blind := true } wNotFound respondY) [] = []
  ∧ given wNotFound (mkTransformers { args0 with blind := false } wNotFound respondY) []
      = [Except.error ⟨ErrorKind.notFound, [], some TIP_NOT_FOUND⟩]
  ∧ ((given wNotFound (mkTransformers { args0 with blind := false } wNotFound respondY) []).map
      (applyRemove removeOk)).foldl tallyStep (0, 0) = (0, 1) :=
  ⟨(not_found_blind_vs_tip args0 wNotFound respondY [] removeOk rfl).2.1,
   (not_found_blind_vs_tip args0 wNotFound respondY [] removeOk rfl).2.2.2.1,
   (not_found_blind_vs_tip args0 wNotFound respondY [] removeOk rfl).2.2.2.2⟩

theorem tipOk_identity (item : Item) (h : TipOk item) : TipOk (identity item) := h

theorem skip_not_found_inner (item : Item) :
    (skip_not_found item).inner = item.inner := by
  obtain ⟨inner, sr, vis⟩ := item
  cases inner with
  | ok e => rfl
  | error e =>
    simp only [skip_not_found]
    split <;> rfl

theorem interactive_inner (respond : Entry → Bool → Except Unit String) (item : Item) :
    (interactive respond item).inner = item.inner := by
  obtain ⟨inner, sr, vis⟩ := item
  cases inner with
  | error e => rfl
  | ok entry =>
    rw [interactive_ok]
    cases respond entry vis with
    | error u => rfl
    | ok answer =>
      rw [interact_transform_ok]
      split
      · rfl
      · split <;> rfl

theorem tipOk_disallow_current_and_parent_dir (item : Item) (h : TipOk item) :
    TipOk (disallow_current_and_parent_dir item) := by
  intro err heq htip
  obtain ⟨inner, sr, vis⟩ := item
  cases inner with
  | error e =>
    rw [disallow_current_and_parent_dir_err ⟨Except.error e, sr, vis⟩ e rfl] at heq
    exact h err heq htip
  | ok entry =>
    simp only [disallow_current_and_parent_dir, Except.bind] at heq
    by_cases hc : is_current_or_parent_dir entry.path = true
    · rw [if_pos hc] at heq
      injection heq with h2
      rw [← h2] at htip
      exact absurd rfl htip
    · rw [if_neg hc] at heq
      cases heq

theorem tipOk_disallow_root (item : Item) (h : TipOk item) :
    TipOk (disallow_root item) := by
  intro err heq htip
  obtain ⟨inner, sr, vis⟩ := item
  cases inner with
  | error e =>
    rw [disallow_root_err ⟨Except.error e, sr, vis⟩ e rfl] at heq
    exact h err heq htip
  | ok entry =>
    simp only [disallow_root, Except.bind] at heq
    by_cases hc : is_root entry.path = true
    · rw [if_pos hc] at heq
      injection heq with h2
      rw [← h2] at htip
      exact absurd rfl htip
    · rw [if_neg hc] at heq
      cases heq

theorem tipOk_disallow_all_dirs (item : Item) (h : TipOk item) :
    TipOk (disallow_all_dirs item) := by
  intro err heq htip
  obtain ⟨inner, sr, vis⟩ := item
  cases inner with
  | error e =>
    rw [disallow_all_dirs_err ⟨Except.error e, sr, vis⟩ e rfl] at heq
    exact h err heq htip
  | ok entry =>
    simp only [disallow_all_dirs, Except.bind] at heq
    by_cases hc : entry.is_dir = true
    · rw [if_pos hc] at heq
      injection heq with h2
      rw [← h2]
      exact Or.inr (Or.inl rfl)
    · rw [if_neg hc] at heq
      cases heq

theorem tipOk_disallow_filled_dirs (w : World) (item : Item) (h : TipOk item) :
    TipOk (disallow_filled_dirs w item) := by
  intro err heq htip
  obtain ⟨inner, sr, vis⟩ := item
  cases inner with
  | error e =>
    rw [disallow_filled_dirs_err w ⟨Except.error e, sr, vis⟩ e rfl] at heq
    exact h err heq htip
  | ok entry =>
    simp only [disallow_filled_dirs, Except.bind] at heq
    by_cases hc : (entry.is_dir && !(is_empty w entry)) = true
    · rw [if_pos hc] at heq
      injection heq with h2
      rw [← h2]
      exact Or.inr (Or.inr rfl)
    · rw [if_neg hc] at heq
      cases heq

theorem tipOk_skip_not_found (item : Item) (h : TipOk item) :
    TipOk (skip_not_found item) := by
  intro err heq htip
  rw [skip_not_found_inner] at heq
  exact h err heq htip

theorem tipOk_tip_not_found (item : Item) (h : TipOk item) :
    TipOk (tip_not_found item) := by
  intro err heq htip
  obtain ⟨inner, sr, vis⟩ := item
  cases inner with
  | ok e => simp [tip_not_found, Except.mapError] at heq
  | error e =>
    simp only [tip_not_found, Except.mapError] at heq
    by_cases hk : e.kind = ErrorKind.notFound
    · rw [if_pos hk] at heq
      injection heq with h2
      rw [← h2]
      exact Or.inl hk
    · rw [if_neg hk] at heq
      injection heq with h2
      subst h2
      exact h e rfl htip

theorem tipOk_interactive (respond : Entry → Bool → Except Unit String) (item : Item)
    (h : TipOk item) : TipOk (interactive respond item) := by
  intro err heq htip
  rw [interactive_inner] at heq
  exact h err heq htip

theorem tipOk_rootGuardStage (b : Bool) (item : Item) (h : TipOk item) :
    TipOk (rootGuardStage b item) := by
  cases b
  · exact tipOk_disallow_root item h
  · exact tipOk_identity item h

theorem tipOk_notFoundStage (b : Bool) (item : Item) (h : TipOk item) :
    TipOk (notFoundStage b item) := by
  cases b
  · exact tipOk_tip_not_found item h
  · exact tipOk_skip_not_found item h

theorem tipOk_dirStage (d r : Bool) (w : World) (item : Item) (h : TipOk item) :
    TipOk (dirStage d r w item) := by
  cases d <;> cases r
  · exact tipOk_disallow_all_dirs item h
  · exact tipOk_identity item h
  · exact tipOk_disallow_filled_dirs w item h
  · exact tipOk_identity item h

theorem tipOk_interactiveStage (b : Bool) (respond : Entry → Bool → Except Unit String)
    (item : Item) (h : TipOk item) : TipOk (interactiveStage b respond item) := by
  cases b
  · exact tipOk_identity item h
  · exact tipOk_interactive respond item h

/-- C8: for every input item whose error (if any) carries no disallowed
tip, the assembled pipeline's output carries a tip only on errors of kind
NotFound, IsADirectory or DirectoryNotEmpty; in particular Refused and
Unknown errors never carry a tip. -/
theorem pipeline_tip_only_recoverable (args : Config) (w : World)
    (respond : Entry → Bool → Except Unit String) (item : Item) (h : TipOk item) :
    TipOk (applyAll (mkTransformers args w respond) item)
  ∧ (∀ err, (applyAll (mkTransformers args w respond) item).inner = Except.error err →
      (err.kind = ErrorKind.refused ∨ err.kind = ErrorKind.unknown) →
      err.tip = none) := by
  have main : TipOk (applyAll (mkTransformers args w respond) item) := by
    show TipOk (interactiveStage args.interactive respond
      (dirStage args.dir args.recursive w
        (notFoundStage args.blind
          (rootGuardStage args.no_preserve_root
            (disallow_current_and_parent_dir item)))))
    exact tipOk_interactiveStage _ _ _ (tipOk_dirStage _ _ _ _ (tipOk_notFoundStage _ _
      (tipOk_rootGuardStage _ _ (tipOk_disallow_current_and_parent_dir _ h))))
  refine ⟨main, ?_⟩
  intro err heq hkind
  by_cases ht : err.tip = none
  · exact ht
  · rcases main err heq ht with h1 | h1 | h1 <;> rcases hkind with h2 | h2 <;>
      rw [h2] at h1 <;> cases h1

theorem pipeline_tip_only_recoverable_witness :
    TipOk (applyAll (mkTransformers args0 wNotFound respondY)
      ⟨Except.error ⟨ErrorKind.refused, [], none⟩, none, false⟩) :=
  (pipeline_tip_only_recoverable args0 wNotFound respondY
    ⟨Except.error ⟨ErrorKind.refused, [], none⟩, none, false⟩
    (fun err heq htip => by cases heq; exact absurd rfl htip)).1

/-- C1: when the first (pre-descent) pipeline result for a root path is a
non-skipped directory entry that is not empty, its listing succeeds with a
non-empty content, and the recursive walker yields exactly the
concatenation of every child subtree's outcomes followed by the
directory's own post-descent outcome: every descendant outcome comes
strictly before the directory's final outcome, which is the last element;
when the post-descent visit is skipped, only the descendants' outcomes are
yielded. -/
theorem recurse_postorder_dir_last (w : World) (ts : Transformers) (fuel : Nat)
    (p : FsPath) (dirEntry : Entry)
    (h1 : visit (walkOpen w p) ts = some (Except.ok dirEntry))
    (h2 : dirEntry.is_dir = true)
    (h3 : is_empty w dirEntry = false) :
    ∃ content, w.readDirAt dirEntry.path = Except.ok content ∧ content ≠ [] ∧
      (∀ last, visit ⟨Except.ok dirEntry, none, true⟩ ts = some last →
        recursePath w ts (fuel + 1) p =
          (content.flatMap fun name =>
            recursePath w ts fuel (childPath dirEntry.path name)) ++ [last]
        ∧ (recursePath w ts (fuel + 1) p).getLast? = some last)
      ∧ (visit ⟨Except.ok dirEntry, none, true⟩ ts = none →
        recursePath w ts (fuel + 1) p =
          content.flatMap fun name =>
            recursePath w ts fuel (childPath dirEntry.path name)) := by
  have hkind : dirEntry.kind = EntryKind.dir := by
    cases hk : dirEntry.kind with
    | dir => rfl
    | file => simp [Entry.is_dir, hk] at h2
    | symlink => simp [Entry.is_dir, hk] at h2
  obtain ⟨content, hld, hne⟩ :
      ∃ content, w.readDirAt dirEntry.path = Except.ok content ∧ content ≠ [] := by
    revert h3
    simp only [is_empty, hkind]
    cases hld : w.readDirAt dirEntry.path with
    | error k =>
      intro h3
      cases h3
    | ok c =>
      intro h3
      refine ⟨c, rfl, ?_⟩
      intro hc
      subst hc
      simp at h3
  refine ⟨content, hld, hne, ?_, ?_⟩
  · intro last hlast
    have hmain : recursePath w ts (fuel + 1) p =
        (content.flatMap fun name =>
          recursePath w ts fuel (childPath dirEntry.path name)) ++ [last] := by
      simp only [recursePath, h1]
      rw [h2, h3]
      simp [hld, hlast]
    refine ⟨hmain, ?_⟩
    rw [hmain]
    exact List.getLast?_concat _
  · intro hnone
    simp only [recursePath, h1]
    rw [h2, h3]
    simp [hld, hnone]

theorem recurse_postorder_dir_last_witness :
    recursePath wTree [] (1 + 1) dPath
      = (["f"].flatMap fun name => recursePath wTree [] 1 (childPath dEntry.path name))
          ++ [Except.ok dEntry]
  ∧ (recursePath wTree [] (1 + 1) dPath).getLast? = some (Except.ok dEntry) := by
  obtain ⟨content, hld, hne, hsome, hnone⟩ :=
    recurse_postorder_dir_last wTree [] 1 dPath dEntry (by decide) (by decide) (by decide)
  have hfl : wTree.readDirAt dEntry.path = Except.ok ["f"] := by decide
  rw [hfl] at hld
  injection hld with hc
  subst hc
  exact hsome (Except.ok dEntry) (by decide)

end RustRm
